import Mathlib

/- Shallow embedding of the core of django_wcag_zoo_runner (runner.py):
   the route classifier, the coverage verifier, the resilient fetcher and
   the validator pipeline, together with theorems checking the published
   specification against this embedding. -/

/-- Model of the Python exception classes that occur in runner.py.
Each constructor stands for one class. -/
inductive ExcClass where
  | Exception
  | OSError
  | ConnectionError
  | ConnectionRefusedError
  | TimeoutError
  | RequestException
  | HTTPError
  | ValueError
  | LookupError
  | KeyError
  | REError
  | ConfigError
deriving DecidableEq

/-- The class itself followed by its base classes up to `Exception`,
mirroring the CPython class hierarchy (requests.HTTPError derives from
requests.RequestException which derives from IOError = OSError;
re.error and configparser.Error derive from Exception directly). -/
def ExcClass.ancestors : ExcClass → List ExcClass
  | .Exception => [.Exception]
  | .OSError => [.OSError, .Exception]
  | .ConnectionError => [.ConnectionError, .OSError, .Exception]
  | .ConnectionRefusedError =>
      [.ConnectionRefusedError, .ConnectionError, .OSError, .Exception]
  | .TimeoutError => [.TimeoutError, .OSError, .Exception]
  | .RequestException => [.RequestException, .OSError, .Exception]
  | .HTTPError => [.HTTPError, .RequestException, .OSError, .Exception]
  | .ValueError => [.ValueError, .Exception]
  | .LookupError => [.LookupError, .Exception]
  | .KeyError => [.KeyError, .LookupError, .Exception]
  | .REError => [.REError, .Exception]
  | .ConfigError => [.ConfigError, .Exception]

/-- Python isinstance / except-clause matching: `e` is caught by a clause
naming class `c` when `c` is an ancestor of the dynamic class of `e`. -/
def isSubclass (a b : ExcClass) : Bool := a.ancestors.contains b

/-- The tuple of the except clause in get_url (runner.py lines 67 to 73):
requests.HTTPError, ConnectionError, TimeoutError, ConnectionRefusedError,
Exception. -/
def get_url_except_clause : List ExcClass :=
  [.HTTPError, .ConnectionError, .TimeoutError, .ConnectionRefusedError,
   .Exception]

/-- Whether a raised exception is caught by the except clause of get_url. -/
def handler_catches (e : ExcClass) : Bool :=
  get_url_except_clause.any (fun c => isSubclass e c)

/-- Model of a requests response: status code, the Content-Type header and
the body (response.content). -/
structure Response where
  status : Nat
  content_type : String
  content : String
deriving DecidableEq

/-- Outcome of get_url: a response together with the number of attempts
made and the total seconds slept, or the terminal ConnectionError raised
after the retry budget is exhausted (carrying the last underlying cause),
or an exception that the except clause did not catch, propagating out of
the loop. -/
inductive FetchOut where
  | ok (r : Response) (attempts slept : Nat)
  | fetchFail (cause : ExcClass) (attempts slept : Nat)
  | uncaught (e : ExcClass) (attempts slept : Nat)
deriving DecidableEq

/-- Loop of get_url (runner.py lines 54 to 84).  Each iteration performs
one GET; `oracle k` is the outcome of attempt number `k` (0-based).  On an
exception caught by the except clause: if `retries` is zero the terminal
ConnectionError is raised from the last cause, otherwise `retries` is
decremented, the loop sleeps `delay` seconds and `delay` doubles. -/
def get_url_go (oracle : Nat → Except ExcClass Response) :
    Nat → Nat → Nat → Nat → FetchOut
  | retries, k, delay, slept =>
    match oracle k with
    | .ok r => .ok r (k + 1) slept
    | .error e =>
      if handler_catches e then
        match retries with
        | 0 => .fetchFail e (k + 1) slept
        | rr + 1 => get_url_go oracle rr (k + 1) (delay * 2) (slept + delay)
      else .uncaught e (k + 1) slept

/-- get_url: retries start at 3 and the first delay is 1 second. -/
def get_url (oracle : Nat → Except ExcClass Response) : FetchOut :=
  get_url_go oracle 3 0 1 0

/- Regular expressions.  runner.py defers to the Python re module
(re.compile, Pattern.match anchored at position 0, re.search).  We model
the fragment of re that the runner exercises: literal characters, the dot
metacharacter, postfix star, plus and question-mark quantifiers (with an
optional lazy question-mark suffix), alternation, groups, simple character
classes and backslash escapes.  Patterns outside the fragment fail to
compile; on the fragment, compilation succeeds exactly when re.compile
succeeds and matching agrees with re. -/

/-- Regular expression abstract syntax.  `dot` matches any character other
than a newline, as Python re does without re.DOTALL.  `cls neg rs` is a
character class given by inclusive ranges, negated when `neg` is true. -/
inductive RE where
  | emp
  | eps
  | ch (c : Char)
  | dot
  | cls (neg : Bool) (rs : List (Char × Char))
  | seq (a b : RE)
  | alt (a b : RE)
  | star (a : RE)
deriving DecidableEq

/-- Whether the regular expression accepts the empty string. -/
def RE.nullable : RE → Bool
  | .emp => false
  | .eps => true
  | .ch _ => false
  | .dot => false
  | .cls _ _ => false
  | .seq a b => a.nullable && b.nullable
  | .alt a b => a.nullable || b.nullable
  | .star _ => true

/-- Character-class membership. -/
def RE.inCls (neg : Bool) (rs : List (Char × Char)) (c : Char) : Bool :=
  let mem := rs.any (fun r => r.1.toNat ≤ c.toNat && c.toNat ≤ r.2.toNat)
  if neg then !mem else mem

/-- Brzozowski derivative of a regular expression by one character. -/
def RE.derivc : RE → Char → RE
  | .emp, _ => .emp
  | .eps, _ => .emp
  | .ch a, c => if a = c then .eps else .emp
  | .dot, c => if c = '\n' then .emp else .eps
  | .cls n rs, c => if RE.inCls n rs c then .eps else .emp
  | .seq a b, c =>
    if a.nullable then .alt (.seq (a.derivc c) b) (b.derivc c)
    else .seq (a.derivc c) b
  | .alt a b, c => .alt (a.derivc c) (b.derivc c)
  | .star a, c => .seq (a.derivc c) (.star a)

/-- Pattern.match semantics: does the expression match some leading
segment of the character list (anchored at position 0, any length)? -/
def reMatchList : RE → List Char → Bool
  | r, [] => r.nullable
  | r, c :: cs => r.nullable || reMatchList (r.derivc c) cs

/-- re.search semantics: does the expression match starting at some
position of the character list? -/
def reSearchList : RE → List Char → Bool
  | r, [] => r.nullable
  | r, c :: cs => reMatchList r (c :: cs) || reSearchList r cs

/-- Body items of a character class, read up to the closing bracket.
An unterminated class, a backslash inside a class and a reversed range
are compilation errors. -/
def parseClsItems : List Char → Option (List (Char × Char) × List Char)
  | [] => none
  | ']' :: rest => some ([], rest)
  | '\\' :: _ => none
  | a :: '-' :: ']' :: rest => some ([(a, a), ('-', '-')], rest)
  | _ :: '-' :: '\\' :: _ => none
  | a :: '-' :: b :: rest =>
    if a.toNat ≤ b.toNat then
      (parseClsItems rest).map (fun p => ((a, b) :: p.1, p.2))
    else none
  | a :: rest => (parseClsItems rest).map (fun p => ((a, a) :: p.1, p.2))

/-- A character class, read after the opening bracket: an optional leading
caret negates, a bracket directly after that is a literal member. -/
def parseCls (cs : List Char) : Option (RE × List Char) :=
  let (neg, cs1) :=
    match cs with
    | '^' :: t => (true, t)
    | _ => (false, cs)
  let (lead, cs2) :=
    match cs1 with
    | ']' :: t => ([(']', ']')], t)
    | _ => (([] : List (Char × Char)), cs1)
  match parseClsItems cs2 with
  | none => none
  | some (items, rest) => some (.cls neg (lead ++ items), rest)

mutual

/-- Alternation level of the pattern grammar (fuelled recursive descent;
the fuel only bounds recursion depth and is chosen large enough in
`pyCompile` that it never runs out on the pattern). -/
def parseAlt' : Nat → List Char → Option (RE × List Char)
  | 0, _ => none
  | f + 1, cs =>
    match parseSeq' f cs with
    | none => none
    | some (r, rest) =>
      match rest with
      | '|' :: rest2 =>
        match parseAlt' f rest2 with
        | none => none
        | some (r2, rest3) => some (.alt r r2, rest3)
      | _ => some (r, rest)

/-- Concatenation level: a possibly empty run of quantified atoms, ended
by the end of input, a closing parenthesis or an alternation bar. -/
def parseSeq' : Nat → List Char → Option (RE × List Char)
  | 0, _ => none
  | f + 1, cs =>
    match cs with
    | [] => some (.eps, [])
    | c :: _ =>
      if c = ')' || c = '|' then some (.eps, cs)
      else
        match parseItem' f cs with
        | none => none
        | some (r, rest) =>
          match parseSeq' f rest with
          | none => none
          | some (r2, rest2) => some (.seq r r2, rest2)

/-- One atom with an optional star, plus or question-mark quantifier; a
question mark directly after a quantifier is the lazy marker and does not
change the recognised language. -/
def parseItem' : Nat → List Char → Option (RE × List Char)
  | 0, _ => none
  | f + 1, cs =>
    match parseAtom' f cs with
    | none => none
    | some (r, rest) =>
      match rest with
      | '*' :: '?' :: rest2 => some (.star r, rest2)
      | '*' :: rest2 => some (.star r, rest2)
      | '+' :: '?' :: rest2 => some (.seq r (.star r), rest2)
      | '+' :: rest2 => some (.seq r (.star r), rest2)
      | '?' :: '?' :: rest2 => some (.alt .eps r, rest2)
      | '?' :: rest2 => some (.alt .eps r, rest2)
      | _ => some (r, rest)

/-- One atom: a group, the dot, a character class, an escape or a literal
character.  A quantifier with nothing to repeat, an unmatched opening
parenthesis, an extension group, an anchor and an unknown alphanumeric
escape are compilation errors, as in re (anchors are outside the modelled
fragment). -/
def parseAtom' : Nat → List Char → Option (RE × List Char)
  | 0, _ => none
  | f + 1, cs =>
    match cs with
    | [] => none
    | '(' :: '?' :: _ => none
    | '(' :: rest =>
      match parseAlt' f rest with
      | some (r, ')' :: rest2) => some (r, rest2)
      | _ => none
    | '.' :: rest => some (.dot, rest)
    | '[' :: rest => parseCls rest
    | '\\' :: e :: rest =>
      if e = 'd' then some (.cls false [('0', '9')], rest)
      else if e = 'w' then
        some (.cls false [('a', 'z'), ('A', 'Z'), ('0', '9'), ('_', '_')],
          rest)
      else if e = 's' then
        some (.cls false
          [(' ', ' '), ('\t', '\t'), ('\n', '\n'), ('\r', '\r'),
           ('\x0b', '\x0b'), ('\x0c', '\x0c')], rest)
      else if e.isAlphanum then none
      else some (.ch e, rest)
    | c :: rest =>
      if c = '*' || c = '+' || c = '?' || c = '^' || c = '$' || c = '\\'
      then none
      else some (.ch c, rest)

end

/-- re.compile: parse the whole pattern; `none` models re.error.  The
fuel 8 * length + 16 exceeds the recursion depth any input can need,
since every four levels of descent either consume a character or
return. -/
def pyCompile (s : String) : Option RE :=
  let cs := s.toList
  match parseAlt' (8 * cs.length + 16) cs with
  | some (r, []) => some r
  | _ => none

/-- Pattern.match on a string (anchored at 0, not full-string). -/
def pymatch (r : RE) (s : String) : Bool := reMatchList r s.toList

/-- re.search on a string. -/
def pysearch (r : RE) (s : String) : Bool := reSearchList r s.toList

/-- Python str.startswith, as a character-list prefix test. -/
def py_startswith (s pre : String) : Bool := pre.toList.isPrefixOf s.toList

/- Python dictionaries.  The runner moves validator results around as
dicts from bucket names to lists; we model a dict as an association list
in insertion order, which is exactly the information a Python dict
carries. -/

/-- A Python dict with string keys, as an insertion-ordered association
list. -/
abbrev PyDict (α : Type) := List (String × α)

/-- The list of keys of a dict, in insertion order. -/
def dKeys {α : Type} (d : PyDict α) : List String := d.map Prod.fst

/-- Lookup, as an option. -/
def dGet? {α : Type} (d : PyDict α) (k : String) : Option α :=
  (d.find? (fun p => p.1 == k)).map (fun p => p.2)

/-- Python KeysView equality is set equality: each key list is contained
in the other. -/
def keysMatch {α β : Type} (d1 : PyDict α) (d2 : PyDict β) : Bool :=
  (dKeys d1).all (fun k => (dKeys d2).contains k) &&
  (dKeys d2).all (fun k => (dKeys d1).contains k)

/-- Python dict item assignment d[k] = v: replace in place when the key
is present, append at the end otherwise. -/
def dSet {α : Type} (d : PyDict α) (k : String) (v : α) : PyDict α :=
  if d.any (fun p => p.1 == k) then
    d.map (fun p => if p.1 == k then (k, v) else p)
  else d ++ [(k, v)]

/-- A wcag-zoo finding: a Python dict of validator-reported fields
(guideline, technique, xpath, and so on), all modelled as strings. -/
abbrev Finding := PyDict String

/-- The four canonical result buckets, in the order runner.py lists them
(lines 92 and 115). -/
def canonKeys : List String := ["success", "failures", "warnings", "skipped"]

/-- The all-empty ValidationResult over an arbitrary finding type. -/
def emptyVR (α : Type) : PyDict (List α) :=
  canonKeys.map (fun k => (k, ([] : List α)))

/-- combine_results (runner.py lines 103 to 110): raise KeyError when the
key sets differ, otherwise build a new dict, iterating the first dict in
order and concatenating the value lists per key. -/
def combine_results {α : Type} (res1 res2 : PyDict (List α)) :
    Except String (PyDict (List α)) :=
  if keysMatch res1 res2 then
    .ok (res1.map (fun p => (p.1, p.2 ++ ((dGet? res2 p.1).getD []))))
  else .error "Keys do not match"

/-- A wcag-zoo validator, externally provided: instantiating the tool
class with staticpath and level and calling validate_document on the raw
content is modelled as one curried function from staticpath, level and
content to the nested category, group, subgroup structure of findings. -/
abbrev Tool := String → String → String → PyDict (PyDict (PyDict (List Finding)))

/-- The flattening loops of wcag_tool_on_content: walk the groups and
subgroups of one category in order, stamp the url field of each finding,
and collect the findings flat. -/
def flattenCat (url : String) (g : PyDict (PyDict (List Finding))) :
    List Finding :=
  g.flatMap (fun gi =>
    gi.2.flatMap (fun gj => gj.2.map (fun k => dSet k "url" url)))

/-- wcag_tool_on_content (runner.py lines 87 to 100): run the tool on the
raw content, then flatten its nested results into the four canonical
buckets, stamping every finding with the page url.  Looking up a bucket
the tool did not produce raises KeyError, modelled as the error case. -/
def wcag_tool_on_content (tool : Tool) (content : Response)
    (url staticpath level : String) : Except String (PyDict (List Finding)) :=
  let results := tool staticpath level content.content
  match dGet? results "success", dGet? results "failures",
        dGet? results "warnings", dGet? results "skipped" with
  | some s, some f, some w, some k =>
    .ok [("success", flattenCat url s), ("failures", flattenCat url f),
         ("warnings", flattenCat url w), ("skipped", flattenCat url k)]
  | _, _, _, _ => .error "KeyError"

/-- Errors that can escape wcag_on_url: the terminal ConnectionError of
get_url (carrying its cause), an exception the fetch handler did not
catch, a KeyError from flattening, or the KeyError of combine_results. -/
inductive RunErr where
  | connError (cause : ExcClass)
  | uncaughtExc (e : ExcClass)
  | keyError
  | keyMismatch
deriving DecidableEq

/-- The tool loop of wcag_on_url: run each tool in order on the page and
merge its flattened results into the accumulator with combine_results. -/
def wcag_tools_fold (content : Response) (url staticpath level : String) :
    List Tool → PyDict (List Finding) → Except RunErr (PyDict (List Finding))
  | [], acc => .ok acc
  | tool :: rest, acc =>
    match wcag_tool_on_content tool content url staticpath level with
    | .error _ => .error .keyError
    | .ok result =>
      match combine_results acc result with
      | .error _ => .error .keyMismatch
      | .ok acc2 => wcag_tools_fold content url staticpath level rest acc2

/-- wcag_on_url (runner.py lines 113 to 128): start from the all-empty
result dict, fetch the url, and if the Content-Type header does not start
with text/html return the empty results without touching any tool;
otherwise run every tool and merge.  The tools list stands for the fixed
external validator classes Tarsier, Anteater, Ayeaye and Molerat. -/
def wcag_on_url (tools : List Tool) (oracle : Nat → Except ExcClass Response)
    (url staticpath level : String) : Except RunErr (PyDict (List Finding)) :=
  let results := emptyVR Finding
  match get_url oracle with
  | .fetchFail cause _ _ => .error (.connError cause)
  | .uncaught e _ _ => .error (.uncaughtExc e)
  | .ok content _ _ =>
    if !(py_startswith content.content_type "text/html") then .ok results
    else wcag_tools_fold content url staticpath level tools results

/- Route classification. -/

/-- One entry of the route table.  project_urls returns tuples whose
component 1 is the pattern string and component 2 the route name; the
view callable in component 0 is never consulted by the core and is not
modelled. -/
structure Route where
  pattern : String
  name : String
deriving DecidableEq

/-- url_test_excluded_path (runner.py lines 173 to 181): the pattern
starts with one of the usually excluded prefixes. -/
def url_test_excluded_path (url : String) : Bool :=
  ["admin", "media", "static", "__debug__"].any
    (fun ex => py_startswith url ex)

/-- url_test_includes_values (runner.py lines 184 to 192):
re.search of the pattern .*<.*>.* finds a match in the url. -/
def url_test_includes_values (url : String) : Bool :=
  match pyCompile ".*<.*>.*" with
  | some r => pysearch r url
  | none => false

/-- The three classification buckets.  The source keeps them in a dict
with keys include, exclude and complex; include is a Lean keyword, hence
the primed field name. -/
structure Urls where
  include' : List String
  exclude : List String
  complex : List String
deriving DecidableEq

/-- generate_default_urls (runner.py lines 195 to 214): classify each
route pattern, in input order, into exclude (excluded prefix), complex
(has value placeholders) or include (the rest).  The Python loop appends
at the end of the chosen bucket; the equivalent structural recursion
conses onto the classification of the tail. -/
def generate_default_urls : List Route → Urls
  | [] => ⟨[], [], []⟩
  | url :: rest =>
    let i := url.pattern
    let urls := generate_default_urls rest
    if url_test_excluded_path i then
      { urls with exclude := i :: urls.exclude }
    else if url_test_includes_values i then
      { urls with complex := i :: urls.complex }
    else
      { urls with include' := i :: urls.include' }

/- Coverage verification. -/

/-- The per-route body of the test_coverage loop (runner.py lines 240 to
266), with `proposed` the concatenation of the include and exclude lists.
Returns `none` when re.compile(url) raises (the compile of the canonical
path is not guarded), otherwise whether the route was found.  Steps, in
order: plain membership of the canonical path in proposed; the canonical
path compiled as a regex and matched against each include entry; each
exclude entry compiled as a regex (re.error skipped) and matched against
the canonical path. -/
def coverage_check (urls_include urls_exclude proposed : List String)
    (i : Route) : Option Bool :=
  let url := "/" ++ i.pattern
  if proposed.contains url then some true
  else
    match pyCompile url with
    | none => none
    | some r =>
      if urls_include.any (fun j => pymatch r j) then some true
      else some (urls_exclude.any (fun j =>
        match pyCompile j with
        | none => false
        | some rj => pymatch rj url))

/-- The test_coverage loop over the route table, collecting the canonical
paths for which a coverage warning is logged, in route order; an
unhandled re.error aborts the whole audit. -/
def coverage_go (urls_include urls_exclude proposed : List String) :
    List Route → Except String (List String)
  | [] => .ok []
  | i :: rest =>
    match coverage_check urls_include urls_exclude proposed i with
    | none => .error ("re.error on /" ++ i.pattern)
    | some true => coverage_go urls_include urls_exclude proposed rest
    | some false =>
      match coverage_go urls_include urls_exclude proposed rest with
      | .error e => .error e
      | .ok gaps => .ok (("/" ++ i.pattern) :: gaps)

/-- test_coverage (runner.py lines 231 to 268), over the include and
exclude lists of the plan and the live route table. -/
def test_coverage (urls_include urls_exclude : List String)
    (django_urls : List Route) : Except String (List String) :=
  coverage_go urls_include urls_exclude (urls_include ++ urls_exclude)
    django_urls

/-- The coverage rules the code actually implements, per canonical path:
exact membership in include or exclude, or the canonical path compiled as
a regex matching some include entry, or some exclude entry compiling to a
regex that matches the canonical path. -/
def codeCovers (urls_include urls_exclude : List String) (c : String) :
    Bool :=
  (urls_include ++ urls_exclude).contains c ||
  (match pyCompile c with
   | some r => urls_include.any (fun j => pymatch r j)
   | none => false) ||
  urls_exclude.any (fun j =>
    match pyCompile j with
    | none => false
    | some rj => pymatch rj c)

/-- Modelled from the claim wording, for comparison with the code: a
canonical path is covered when it is an exact member of the include list,
or some include entry compiled as a regex matches a leading segment of
it, or some exclude entry compiled as a regex matches a leading segment
of it. -/
def claimedCovers (urls_include urls_exclude : List String) (c : String) :
    Bool :=
  urls_include.contains c ||
  urls_include.any (fun j =>
    match pyCompile j with
    | none => false
    | some rj => pymatch rj c) ||
  urls_exclude.any (fun j =>
    match pyCompile j with
    | none => false
    | some rj => pymatch rj c)

/- The main entry point (runner.py lines 271 to 378), at the granularity
of the target-subprocess lifecycle. -/

/-- Observable events of one run of main: the target subprocess being
started (run_server) or terminated (a.terminate()), main returning
normally, or an exception propagating out of main. -/
inductive MEv where
  | start
  | terminate
  | ret
  | raised (e : ExcClass)
deriving DecidableEq

/-- main (runner.py lines 271 to 378) as the event trace of one run,
parameterised by the outcomes of its effectful phases: `gather` is the
--gather-urls flag (main returns before starting the server); `confLoad`
is the outcome of load_conf, carrying whether the config has an include
section; `coverage` is the outcome of test_coverage (taken when an
include section exists) and `genDefault` of generate_default_urls
(otherwise); `loopRun` is the outcome of the url testing loop.  The
server is started before load_conf; the try block around the loop has an
except ConnectionError arm that terminates the server and a finally that
terminates it again. -/
def main_run (gather : Bool) (confLoad : Except ExcClass Bool)
    (coverage genDefault loopRun : Except ExcClass Unit) : List MEv :=
  if gather then [MEv.ret]
  else
    MEv.start ::
    match confLoad with
    | .error e => [MEv.raised e]
    | .ok hasInclude =>
      match (if hasInclude then coverage else genDefault) with
      | .error e => [MEv.raised e]
      | .ok _ =>
        match loopRun with
        | .ok _ => [MEv.terminate, MEv.ret]
        | .error e =>
          if isSubclass e .ConnectionError then
            [MEv.terminate, MEv.terminate, MEv.ret]
          else [MEv.terminate, MEv.raised e]

/- Theorems. -/

/-- Every exception class is caught by the except clause of get_url,
because the clause tuple ends with Exception itself. -/
theorem handler_catches_all (e : ExcClass) : handler_catches e = true := by
  cases e <;> rfl

/-- C2: for every URL and every sequence of fetch outcomes, if the GET
fails N times before succeeding then for N at most 3 the fetch returns
the content after exactly N + 1 attempts having slept the sum of the
first N terms of 1, 2, 4 seconds, and for N at least 4 the fetcher makes
exactly 4 attempts, sleeps 1 + 2 + 4 seconds in between, and raises the
terminal error carrying the last underlying cause. -/
theorem C2_get_url_retry (oracle : Nat → Except ExcClass Response) (N : Nat)
    (r : Response) (errs : Nat → ExcClass)
    (hfail : ∀ i, i < N → oracle i = .error (errs i))
    (hok : oracle N = .ok r) :
    (N ≤ 3 → get_url oracle = .ok r (N + 1) (([1, 2, 4].take N).sum)) ∧
    (4 ≤ N → get_url oracle = .fetchFail (errs 3) 4 ([1, 2, 4].sum)) := by
  constructor
  · intro hN
    interval_cases N
    · simp [get_url, get_url_go, hok]
    · simp [get_url, get_url_go, hfail 0 (by omega), hok,
        handler_catches_all]
    · simp [get_url, get_url_go, hfail 0 (by omega), hfail 1 (by omega),
        hok, handler_catches_all]
    · simp [get_url, get_url_go, hfail 0 (by omega), hfail 1 (by omega),
        hfail 2 (by omega), hok, handler_catches_all]
  · intro hN
    simp [get_url, get_url_go, hfail 0 (by omega), hfail 1 (by omega),
      hfail 2 (by omega), hfail 3 (by omega), handler_catches_all]

/-- Witness for C2 at N = 2: two timeouts then a success give the
response after 3 attempts and 1 + 2 = 3 seconds of sleep. -/
theorem C2_witness :
    get_url (fun i => if i < 2 then .error .TimeoutError
        else .ok ⟨200, "text/html", "ok"⟩) =
      .ok ⟨200, "text/html", "ok"⟩ 3 3 := by
  have h := (C2_get_url_retry
    (fun i => if i < 2 then .error .TimeoutError
      else .ok ⟨200, "text/html", "ok"⟩)
    2 ⟨200, "text/html", "ok"⟩ (fun _ => .TimeoutError)
    (by intro i hi; interval_cases i <;> rfl) rfl).1 (by omega)
  simpa using h

/-- C7 counterexample: the except clause of get_url is not a narrow
transport-only check.  A KeyError (a programming error, not a
network-level failure) raised during the first GET is caught by the
clause and retried, and the fetch then succeeds on the second attempt
after a 1 second sleep: the resilience loop swallowed it. -/
theorem C7_counterexample :
    handler_catches .KeyError = true ∧
    get_url (fun i => if i = 0 then .error .KeyError
        else .ok ⟨200, "text/html", "b"⟩) =
      .ok ⟨200, "text/html", "b"⟩ 2 1 := by
  constructor
  · rfl
  · decide

/-- C7 amended: a GET that completes with any HTTP status, 2xx or not,
returns immediately on the first attempt and is never retried; but the
error-kind check of the retry loop is broad, not narrow: every exception
class, network-level or not, is caught by the except clause and hence
swallowed and retried by the resilience loop. -/
theorem C7_fetch_error_handling :
    (∀ (oracle : Nat → Except ExcClass Response) (r : Response),
        oracle 0 = .ok r → get_url oracle = .ok r 1 0) ∧
    (∀ e : ExcClass, handler_catches e = true) := by
  refine ⟨?_, handler_catches_all⟩
  intro oracle r h
  simp [get_url, get_url_go, h]

/-- Witness for C7: a completed GET with status 500 is returned on the
first attempt with no retry and no sleep. -/
theorem C7_witness :
    get_url (fun _ => .ok ⟨500, "text/html", "err"⟩) =
      .ok ⟨500, "text/html", "err"⟩ 1 0 :=
  C7_fetch_error_handling.1 _ _ rfl

/-- C6: when the fetched content declares a media type that does not
start with text/html, the pipeline returns the dict with exactly the four
keys success, failures, warnings and skipped all mapped to empty lists,
and no validator is touched: the result is the same for every list of
validators, in particular the same as with no validators at all. -/
theorem C6_non_html_skips (tools : List Tool)
    (oracle : Nat → Except ExcClass Response) (url staticpath level : String)
    (r : Response) (a s : Nat)
    (hfetch : get_url oracle = .ok r a s)
    (hct : py_startswith r.content_type "text/html" = false) :
    wcag_on_url tools oracle url staticpath level = .ok (emptyVR Finding) ∧
    wcag_on_url tools oracle url staticpath level =
      wcag_on_url [] oracle url staticpath level ∧
    emptyVR Finding =
      [("success", []), ("failures", []), ("warnings", []),
       ("skipped", [])] := by
  refine ⟨?_, ?_, rfl⟩ <;> simp [wcag_on_url, hfetch, hct]

/-- Witness for C6: a page served as application/json with one validator
in the list yields the all-empty result. -/
theorem C6_witness :
    wcag_on_url [fun _ _ _ => []]
      (fun _ => .ok ⟨200, "application/json", "x"⟩) "u" "." "AAA" =
      .ok (emptyVR Finding) :=
  (C6_non_html_skips [fun _ _ _ => []]
    (fun _ => .ok ⟨200, "application/json", "x"⟩) "u" "." "AAA"
    ⟨200, "application/json", "x"⟩ 1 0 rfl (by decide)).1

/-- Setting a key in a finding makes the later lookup of that key return
the written value, whether the key was present (replaced in place) or
absent (appended). -/
theorem dGet?_dSet_self {α : Type} (d : PyDict α) (k : String) (v : α) :
    dGet? (dSet d k v) k = some v := by
  unfold dSet
  by_cases h : d.any (fun p => p.1 == k)
  · rw [if_pos h]
    induction d with
    | nil => simp at h
    | cons p d ih =>
      by_cases hp : p.1 == k
      · simp [dGet?, List.find?, hp]
      · simp only [List.any_cons, hp, Bool.false_or] at h
        simpa [dGet?, List.find?, hp] using ih h
  · rw [if_neg h]
    induction d with
    | nil => simp [dGet?, List.find?]
    | cons p d ih =>
      simp only [List.any_cons, Bool.or_eq_true, not_or] at h
      have hp : (p.1 == k) = false := by
        simpa using h.1
      simpa [dGet?, List.find?, hp] using ih (by simp [h.2])

/-- Every finding collected by the flattening loop has just been stamped
with the page url. -/
theorem flattenCat_url_stamped (url : String)
    (g : PyDict (PyDict (List Finding))) :
    ∀ fnd ∈ flattenCat url g, dGet? fnd "url" = some url := by
  intro fnd h
  simp only [flattenCat, List.mem_flatMap, List.mem_map] at h
  obtain ⟨gi, _, gj, _, k0, _, rfl⟩ := h
  exact dGet?_dSet_self k0 "url" url

/-- C8: for every page processed by the pipeline, every finding in any of
the four buckets of the flattened result has its url field equal to the
page url passed in, whatever the validator produced for that field. -/
theorem C8_url_stamping (tool : Tool) (content : Response)
    (url staticpath level : String) (flat : PyDict (List Finding))
    (h : wcag_tool_on_content tool content url staticpath level = .ok flat) :
    ∀ kv ∈ flat, ∀ fnd ∈ kv.2, dGet? fnd "url" = some url := by
  simp only [wcag_tool_on_content] at h
  cases hs : dGet? (tool staticpath level content.content) "success" <;>
    rw [hs] at h
  all_goals
    cases hf : dGet? (tool staticpath level content.content) "failures" <;>
      rw [hf] at h
  all_goals
    cases hw : dGet? (tool staticpath level content.content) "warnings" <;>
      rw [hw] at h
  all_goals
    cases hk : dGet? (tool staticpath level content.content) "skipped" <;>
      rw [hk] at h
  all_goals simp only [reduceCtorEq, Except.ok.injEq] at h
  subst h
  intro kv hkv
  simp only [List.mem_cons, List.not_mem_nil, or_false] at hkv
  rcases hkv with rfl | rfl | rfl | rfl <;>
    exact fun fnd hf2 => flattenCat_url_stamped url _ fnd hf2

/-- Witness for C8: one validator finding carrying url WRONG comes out of
the flattening with url stamped to the page url. -/
theorem C8_witness :
    dGet? [("url", "page"), ("guideline", "g")] "url" = some "page" :=
  C8_url_stamping
    (fun _ _ _ =>
      [("success", [("grp", [("sub", [[("url", "WRONG"), ("guideline", "g")]])])]),
       ("failures", []), ("warnings", []), ("skipped", [])])
    ⟨200, "text/html", "doc"⟩ "page" "." "AAA"
    [("success", [[("url", "page"), ("guideline", "g")]]),
     ("failures", []), ("warnings", []), ("skipped", [])]
    rfl
    ("success", [[("url", "page"), ("guideline", "g")]]) (by decide)
    [("url", "page"), ("guideline", "g")] (by decide)

/-- The classifier, in closed form: each bucket is the input pattern
list filtered by its classification rule, in first-seen input order. -/
theorem generate_default_urls_eq (l : List Route) :
    generate_default_urls l =
      ⟨(l.map Route.pattern).filter
          (fun p => !url_test_excluded_path p && !url_test_includes_values p),
       (l.map Route.pattern).filter (fun p => url_test_excluded_path p),
       (l.map Route.pattern).filter
          (fun p => !url_test_excluded_path p && url_test_includes_values p)⟩ := by
  induction l with
  | nil => rfl
  | cons u rest ih =>
    simp only [generate_default_urls, ih, List.map_cons, List.filter_cons]
    by_cases h1 : url_test_excluded_path u.pattern <;>
      by_cases h2 : url_test_includes_values u.pattern <;>
      simp [h1, h2]

/-- C4: for a route list de-duplicated by pattern string, the classifier
puts each pattern in exactly one bucket (exclude when it starts with one
of the excluded prefixes, else complex when it has a placeholder, else
include), the buckets are pairwise disjoint, their union by pattern
string is the input set, and each bucket keeps first-seen input order
(it equals the input list filtered by the bucket rule). -/
theorem C4_classifier (allurls : List Route)
    (hnd : (allurls.map Route.pattern).Nodup) :
    (generate_default_urls allurls).exclude
      = (allurls.map Route.pattern).filter
          (fun p => url_test_excluded_path p) ∧
    (generate_default_urls allurls).complex
      = (allurls.map Route.pattern).filter
          (fun p => !url_test_excluded_path p && url_test_includes_values p) ∧
    (generate_default_urls allurls).include'
      = (allurls.map Route.pattern).filter
          (fun p => !url_test_excluded_path p && !url_test_includes_values p) ∧
    (∀ p, p ∈ allurls.map Route.pattern ↔
        (p ∈ (generate_default_urls allurls).include' ∨
         p ∈ (generate_default_urls allurls).exclude ∨
         p ∈ (generate_default_urls allurls).complex)) ∧
    (∀ p,
        ¬(p ∈ (generate_default_urls allurls).include' ∧
          p ∈ (generate_default_urls allurls).exclude) ∧
        ¬(p ∈ (generate_default_urls allurls).include' ∧
          p ∈ (generate_default_urls allurls).complex) ∧
        ¬(p ∈ (generate_default_urls allurls).exclude ∧
          p ∈ (generate_default_urls allurls).complex)) := by
  rw [generate_default_urls_eq]
  refine ⟨rfl, rfl, rfl, ?_, ?_⟩
  · intro p
    constructor
    · intro hp
      by_cases h1 : url_test_excluded_path p <;>
        by_cases h2 : url_test_includes_values p <;>
        simp [List.mem_filter, hp, h1, h2]
    · intro hp
      rcases hp with hp | hp | hp <;>
        exact (List.mem_filter.mp hp).1
  · intro p
    refine ⟨fun hp => ?_, fun hp => ?_, fun hp => ?_⟩ <;>
      obtain ⟨h1, h2⟩ := hp <;>
      have g1 := (List.mem_filter.mp h1).2 <;>
      have g2 := (List.mem_filter.mp h2).2 <;>
      simp only [Bool.and_eq_true, Bool.not_eq_true'] at g1 g2 <;>
      simp_all

/-- Witness for C4 on a concrete de-duplicated route table: an admin
route, a parameterised route and a plain route land in exclude, complex
and include respectively. -/
theorem C4_witness :
    (generate_default_urls
        [⟨"admin/login", "a"⟩, ⟨"products/<int:id>", "b"⟩, ⟨"about", "c"⟩]
      ).exclude = ["admin/login"] :=
  (C4_classifier
    [⟨"admin/login", "a"⟩, ⟨"products/<int:id>", "b"⟩, ⟨"about", "c"⟩]
    (by decide)).1.trans (by decide)

/-- A dict whose key list is the four canonical buckets is a four-entry
association list with those keys in that order. -/
theorem pd_shape4 {α : Type} {d : PyDict α} (h : dKeys d = canonKeys) :
    ∃ a b c e,
      d = [("success", a), ("failures", b), ("warnings", c),
           ("skipped", e)] := by
  rcases d with _ | ⟨⟨k1, v1⟩, _ | ⟨⟨k2, v2⟩, _ | ⟨⟨k3, v3⟩,
    _ | ⟨⟨k4, v4⟩, _ | ⟨p, tl⟩⟩⟩⟩⟩ <;>
    simp only [dKeys, canonKeys, List.map_cons, List.map_nil,
      List.cons.injEq, reduceCtorEq, and_false, false_and] at h
  obtain ⟨rfl, rfl, rfl, rfl, -⟩ := h
  exact ⟨v1, v2, v3, v4, rfl⟩

/-- combine_results on two dicts in canonical shape concatenates the
bucket lists pointwise. -/
theorem combine_results_shape {α : Type} (a1 b1 c1 e1 a2 b2 c2 e2 : List α) :
    combine_results
      [("success", a1), ("failures", b1), ("warnings", c1), ("skipped", e1)]
      [("success", a2), ("failures", b2), ("warnings", c2), ("skipped", e2)]
      = .ok [("success", a1 ++ a2), ("failures", b1 ++ b2),
             ("warnings", c1 ++ c2), ("skipped", e1 ++ e2)] := by
  simp [combine_results, keysMatch, dKeys, dGet?, List.find?]

/-- C5: on ValidationResults (dicts with exactly the four canonical
buckets) combine_results concatenates the two lists under each key and is
associative, the all-empty ValidationResult is its two-sided identity,
and on any pair of dicts whose key sets differ it raises instead of
returning a result. -/
theorem C5_combine_algebra :
    (∀ (α : Type) (r1 r2 r3 : PyDict (List α)),
        dKeys r1 = canonKeys → dKeys r2 = canonKeys → dKeys r3 = canonKeys →
        (combine_results r1 r2).bind (fun x => combine_results x r3) =
          (combine_results r2 r3).bind (fun x => combine_results r1 x)) ∧
    (∀ (α : Type) (r : PyDict (List α)), dKeys r = canonKeys →
        combine_results (emptyVR α) r = .ok r ∧
        combine_results r (emptyVR α) = .ok r) ∧
    (∀ (α : Type) (r1 r2 : PyDict (List α)),
        (∃ k, (k ∈ dKeys r1 ∧ k ∉ dKeys r2) ∨
              (k ∈ dKeys r2 ∧ k ∉ dKeys r1)) →
        combine_results r1 r2 = .error "Keys do not match") := by
  refine ⟨?_, ?_, ?_⟩
  · intro α r1 r2 r3 h1 h2 h3
    obtain ⟨a1, b1, c1, e1, rfl⟩ := pd_shape4 h1
    obtain ⟨a2, b2, c2, e2, rfl⟩ := pd_shape4 h2
    obtain ⟨a3, b3, c3, e3, rfl⟩ := pd_shape4 h3
    rw [combine_results_shape, combine_results_shape]
    simp only [Except.bind]
    rw [combine_results_shape, combine_results_shape]
    simp [List.append_assoc]
  · intro α r h
    obtain ⟨a, b, c, e, rfl⟩ := pd_shape4 h
    constructor
    · have := combine_results_shape ([] : List α) [] [] [] a b c e
      simpa [emptyVR, canonKeys] using this
    · have := combine_results_shape a b c e ([] : List α) [] [] []
      simpa [emptyVR, canonKeys] using this
  · intro α r1 r2 h
    obtain ⟨k, hk⟩ := h
    have hfalse : keysMatch r1 r2 = false := by
      rcases hk with ⟨hin, hout⟩ | ⟨hin, hout⟩
      · have h1 : (dKeys r1).all (fun k => (dKeys r2).contains k) = false :=
          Bool.eq_false_iff.mpr (fun hall =>
            hout (by simpa using List.all_eq_true.mp hall k hin))
        unfold keysMatch
        rw [h1, Bool.false_and]
      · have h1 : (dKeys r2).all (fun k => (dKeys r1).contains k) = false :=
          Bool.eq_false_iff.mpr (fun hall =>
            hout (by simpa using List.all_eq_true.mp hall k hin))
        unfold keysMatch
        rw [h1, Bool.and_false]
    simp [combine_results, hfalse]

/-- Witness for C5: associativity at three concrete ValidationResults
over Nat findings. -/
theorem C5_witness :
    (combine_results
        [("success", [1]), ("failures", [2]), ("warnings", []),
         ("skipped", [])]
        [("success", [3]), ("failures", []), ("warnings", [4]),
         ("skipped", [])]).bind
      (fun x => combine_results x
        [("success", []), ("failures", [5]), ("warnings", []),
         ("skipped", [6])]) =
    (combine_results
        [("success", [3]), ("failures", []), ("warnings", [4]),
         ("skipped", [])]
        [("success", []), ("failures", [5]), ("warnings", []),
         ("skipped", [6])]).bind
      (fun x => combine_results
        [("success", [1]), ("failures", [2]), ("warnings", []),
         ("skipped", [])] x) :=
  C5_combine_algebra.1 Nat
    [("success", [1]), ("failures", [2]), ("warnings", []), ("skipped", [])]
    [("success", [3]), ("failures", []), ("warnings", [4]), ("skipped", [])]
    [("success", []), ("failures", [5]), ("warnings", []), ("skipped", [6])]
    rfl rfl rfl

/-- The loop body of test_coverage decides exactly the codeCovers
predicate whenever it does not raise. -/
theorem coverage_check_covers (inc exc : List String) (i : Route) (b : Bool)
    (h : coverage_check inc exc (inc ++ exc) i = some b) :
    codeCovers inc exc ("/" ++ i.pattern) = b := by
  simp only [coverage_check] at h
  cases h1 : (inc ++ exc).contains ("/" ++ i.pattern)
  · rw [h1] at h
    cases hc : pyCompile ("/" ++ i.pattern) with
    | none => simp [hc] at h
    | some r =>
      simp only [Bool.false_eq_true, if_false, hc] at h
      cases h2 : inc.any (fun j => pymatch r j)
      · simp only [h2, Bool.false_eq_true, if_false,
          Option.some.injEq] at h
        subst h
        simp only [codeCovers, h1, hc, h2, Bool.false_or]
      · simp only [h2, if_true, Option.some.injEq] at h
        subst h
        simp only [codeCovers, h1, hc, h2, Bool.false_or, Bool.true_or]
  · rw [h1] at h
    simp only [if_true, Option.some.injEq] at h
    subst h
    simp only [codeCovers, h1, Bool.true_or]

/-- When the test_coverage loop completes, the reported gaps are exactly
the canonical paths of the routes not covered by codeCovers, in route
order. -/
theorem coverage_go_ok_eq (inc exc : List String) (routes : List Route)
    (gaps : List String)
    (h : coverage_go inc exc (inc ++ exc) routes = .ok gaps) :
    gaps = (routes.map (fun i => "/" ++ i.pattern)).filter
        (fun c => !codeCovers inc exc c) := by
  induction routes generalizing gaps with
  | nil =>
    simp only [coverage_go] at h
    obtain rfl := Except.ok.inj h
    rfl
  | cons i rest ih =>
    simp only [coverage_go] at h
    cases hchk : coverage_check inc exc (inc ++ exc) i with
    | none => rw [hchk] at h; exact absurd h (by simp)
    | some b =>
      rw [hchk] at h
      have hcov := coverage_check_covers inc exc i b hchk
      cases b
      · cases hrest : coverage_go inc exc (inc ++ exc) rest with
        | error e => rw [hrest] at h; exact absurd h (by simp)
        | ok gaps2 =>
          rw [hrest] at h
          simp only [Except.ok.injEq] at h
          subst h
          simp [List.filter_cons, hcov, ih gaps2 hrest]
      · simp only [] at h
        simp [List.filter_cons, hcov, ih gaps h]

/-- C1 amended: whenever the coverage audit completes, a gap is reported
for a live route if and only if its canonical path is covered by none of
the rules the code implements: exact membership in the union of
plan.include and plan.exclude, or the canonical path itself compiled as a
regex matching some include entry, or some exclude entry compiling to a
regex that matches the canonical path; the gap list is exactly the
uncovered canonical paths in route order. -/
theorem C1_coverage_gaps (inc exc : List String) (routes : List Route)
    (gaps : List String) (h : test_coverage inc exc routes = .ok gaps) :
    gaps = (routes.map (fun i => "/" ++ i.pattern)).filter
        (fun c => !codeCovers inc exc c) ∧
    ∀ i ∈ routes,
      (("/" ++ i.pattern) ∈ gaps ↔
        codeCovers inc exc ("/" ++ i.pattern) = false) := by
  simp only [test_coverage] at h
  have heq := coverage_go_ok_eq inc exc routes gaps h
  subst heq
  refine ⟨rfl, ?_⟩
  intro i hi
  constructor
  · intro hmem
    have := (List.mem_filter.mp hmem).2
    simpa using this
  · intro hcov
    exact List.mem_filter.mpr
      ⟨List.mem_map.mpr ⟨i, hi, rfl⟩, by simp [hcov]⟩

/-- C1 counterexample, three concrete audits.  First, on the claim's own
example (live route products/1/detail, include = the literal
/products/<int:id>/detail) the code reports a gap, where the claim
promises none: <int:id> is all regex literals, so neither direction of
prefix matching succeeds.  Second, for live route a.* and include entry
/ab the code finds a cover (it compiles the canonical path /a.* and
matches it against the include entry), while under the claim's rules
(include entry compiled and matched against the canonical path) nothing
covers /a.*, so the claim predicts a gap.  Third, a canonical path that
is an exact member of plan.exclude only is covered by the code's plain
membership test on include + exclude, while the claim's three rules all
fail on it (its exclude entry does not even compile), so the claim again
predicts a gap. -/
theorem C1_counterexample :
    (test_coverage ["/products/<int:id>/detail"] []
        [⟨"products/1/detail", "d"⟩] = .ok ["/products/1/detail"]) ∧
    (test_coverage ["/ab"] [] [⟨"a.*", "r"⟩] = .ok [] ∧
      claimedCovers ["/ab"] [] "/a.*" = false) ∧
    (test_coverage ["/x"] ["/("] [⟨"(", "p"⟩] = .ok [] ∧
      claimedCovers ["/x"] ["/("] "/(" = false) :=
  ⟨rfl, ⟨rfl, by decide⟩, ⟨rfl, by decide⟩⟩

/-- Witness for C1 on a concrete plan and route table: the covered route
about produces no gap, the uncovered route contact does. -/
theorem C1_witness :
    (["/contact"] : List String) =
      ([⟨"about", "a"⟩, ⟨"contact", "b"⟩].map
          (fun i : Route => "/" ++ i.pattern)).filter
        (fun c => !codeCovers ["/about"] [] c) :=
  (C1_coverage_gaps ["/about"] [] [⟨"about", "a"⟩, ⟨"contact", "b"⟩]
    ["/contact"] rfl).1

/-- C9 amended: whenever some live route's canonical path fails to
compile as a regex and is not an exact member of the union of
plan.include and plan.exclude, the unguarded re.compile of the canonical
path raises and the whole audit aborts with a regex-compilation error
instead of returning gaps.  (The original claim required exemption only
from plan.include: an exact member of plan.exclude also escapes the
compile, through the plain membership test on include + exclude.) -/
theorem C9_uncompilable_aborts (inc exc : List String) (routes : List Route)
    (i : Route) (hi : i ∈ routes)
    (hmem : ("/" ++ i.pattern) ∉ inc ++ exc)
    (hbad : pyCompile ("/" ++ i.pattern) = none)
    (hne : inc ≠ []) :
    ∃ msg, test_coverage inc exc routes = .error msg := by
  simp only [test_coverage]
  induction routes with
  | nil => cases hi
  | cons j rest ih =>
    rcases List.mem_cons.mp hi with rfl | hi2
    · have hcf : ¬("/" ++ i.pattern ∈ inc ∨ "/" ++ i.pattern ∈ exc) := by
        simpa [List.mem_append] using hmem
      exact ⟨"re.error on /" ++ i.pattern,
        by simp [coverage_go, coverage_check, hcf, hbad]⟩
    · cases hchk : coverage_check inc exc (inc ++ exc) j with
      | none =>
        exact ⟨"re.error on /" ++ j.pattern, by simp [coverage_go, hchk]⟩
      | some b =>
        obtain ⟨msg, hmsg⟩ := ih hi2
        cases b
        · exact ⟨msg, by simp [coverage_go, hchk, hmsg]⟩
        · exact ⟨msg, by simp [coverage_go, hchk, hmsg]⟩

/-- C9 counterexample to the original membership condition: the canonical
path /( does not compile and is not a member of plan.include, which is
non-empty, yet the audit completes without raising, because /( is an
exact member of plan.exclude and the plain membership test covers it
before anything is compiled. -/
theorem C9_counterexample :
    test_coverage ["/x"] ["/("] [⟨"(", "p"⟩] = .ok [] ∧
    pyCompile "/(" = none ∧ ("/(" ∉ (["/x"] : List String)) ∧
    (["/x"] : List String) ≠ [] :=
  ⟨rfl, by decide, by decide, by decide⟩

/-- Witness for C9: with include /x, empty exclude and the single live
route ( whose canonical path /( does not compile, the audit aborts. -/
theorem C9_witness :
    ∃ msg, test_coverage ["/x"] [] [⟨"(", "p"⟩] = .error msg :=
  C9_uncompilable_aborts ["/x"] [] [⟨"(", "p"⟩] ⟨"(", "p"⟩ (by decide)
    (by decide) (by decide) (by decide)

/-- C3 amended: after the target subprocess is started, the run behaves
as follows.  On normal completion it is terminated exactly once.  On a
terminal fetch failure (the ConnectionError raised by get_url, caught by
the except arm and then hit again by the finally arm) it is terminated
exactly twice and main returns normally.  On any other uncaught error
raised inside the URL loop it is terminated exactly once and the error
propagates.  On a failure while loading or parsing the plan config file,
or while running the coverage check or the default URL generation, the
subprocess has already been started (so an unparsable plan file does not
make the process exit before the subprocess starts) and is never
terminated, because load_conf and these phases run after run_server and
outside the try/finally. -/
theorem C3_subprocess_lifecycle (confLoad : Except ExcClass Bool)
    (coverage genDefault loopRun : Except ExcClass Unit) :
    (∀ hi, confLoad = .ok hi →
        (if hi then coverage else genDefault) = .ok () →
        loopRun = .ok () →
        main_run false confLoad coverage genDefault loopRun =
          [MEv.start, MEv.terminate, MEv.ret]) ∧
    (∀ hi e, confLoad = .ok hi →
        (if hi then coverage else genDefault) = .ok () →
        loopRun = .error e → isSubclass e .ConnectionError = true →
        main_run false confLoad coverage genDefault loopRun =
          [MEv.start, MEv.terminate, MEv.terminate, MEv.ret]) ∧
    (∀ hi e, confLoad = .ok hi →
        (if hi then coverage else genDefault) = .ok () →
        loopRun = .error e → isSubclass e .ConnectionError = false →
        main_run false confLoad coverage genDefault loopRun =
          [MEv.start, MEv.terminate, MEv.raised e]) ∧
    (∀ e, confLoad = .error e →
        main_run false confLoad coverage genDefault loopRun =
          [MEv.start, MEv.raised e]) ∧
    (∀ hi e, confLoad = .ok hi →
        (if hi then coverage else genDefault) = .error e →
        main_run false confLoad coverage genDefault loopRun =
          [MEv.start, MEv.raised e]) := by
  refine ⟨?_, ?_, ?_, ?_, ?_⟩
  · intro hi h1 h2 h3
    subst h1; subst h3
    simp [main_run, h2]
  · intro hi e h1 h2 h3 h4
    subst h1; subst h3
    simp [main_run, h2, h4]
  · intro hi e h1 h2 h3 h4
    subst h1; subst h3
    simp [main_run, h2, h4]
  · intro e h1
    subst h1
    simp [main_run]
  · intro hi e h1 h2
    subst h1
    simp [main_run, h2]

/-- C3 counterexample: on a terminal fetch failure the subprocess is
terminated twice, not exactly once (the except ConnectionError arm
terminates it and the finally arm terminates it again); and with an
unparsable plan file the subprocess has already been started and is never
terminated, rather than the process exiting before the subprocess is
started. -/
theorem C3_counterexample :
    ((main_run false (.ok true) (.ok ()) (.ok ())
        (.error .ConnectionError)).count MEv.terminate = 2) ∧
    ((main_run false (.error .ConfigError) (.ok ()) (.ok ())
        (.ok ())).count MEv.terminate = 0) ∧
    (MEv.start ∈ main_run false (.error .ConfigError) (.ok ()) (.ok ())
        (.ok ())) := by
  refine ⟨by decide, by decide, by decide⟩

/-- Witness for C3: the terminal-fetch-failure trace, with its two
terminate events. -/
theorem C3_witness :
    main_run false (.ok true) (.ok ()) (.ok ()) (.error .ConnectionError) =
      [MEv.start, MEv.terminate, MEv.terminate, MEv.ret] :=
  (C3_subprocess_lifecycle (.ok true) (.ok ()) (.ok ())
    (.error .ConnectionError)).2.1 true .ConnectionError rfl rfl rfl rfl
